import Mathlib

/-!
Shallow embedding of the `linkurious` Python client
(`src/linkurious/__init__.py`, class `Linkurious`), restricted to the parts
the specification's claims are about: the authentication/session lifecycle
and the request descriptors (HTTP method, path, query-parameter mapping,
body mapping) each endpoint method builds.

Python values placed into the mappings are modelled by the inductive `Value`;
mappings are association lists in insertion order (Python dicts preserve
insertion order).  Python truthiness of the relevant types is modelled
explicitly (`None`, `""`, `0`, `False`, `[]`, `{}` are falsy).  Exceptions
are modelled as explicit results: each call returns the request it issued
(if any), the post-call client state, and the exception raised (if any).
-/

/-- A Python value as it appears in a query-parameter or body mapping. -/
inductive Value where
  | null
  | bool (b : Bool)
  | int (n : Int)
  | str (s : String)
  | list (xs : List Value)
  | dict (m : List (String × Value))
deriving Repr

/-- Python truthiness for `Value` (`bool(v)`). -/
def Value.truthy : Value → Bool
  | .null => false
  | .bool b => b
  | .int n => n != 0
  | .str s => !s.isEmpty
  | .list xs => !xs.isEmpty
  | .dict m => !m.isEmpty

/-- Truthiness of an `Optional[str]` argument (`None` and `""` are falsy). -/
def truthyOptStr : Option String → Bool
  | none => false
  | some s => !s.isEmpty

/-- Truthiness of an `Optional[int]` argument (`None` and `0` are falsy). -/
def truthyOptInt : Option Int → Bool
  | none => false
  | some n => n != 0

/-- Truthiness of an `Optional[List]` argument (`None` and `[]` are falsy). -/
def truthyOptList {α : Type} : Option (List α) → Bool
  | none => false
  | some xs => !xs.isEmpty

/-- Truthiness of an `Optional[Any]` argument. -/
def truthyOptVal : Option Value → Bool
  | none => false
  | some v => v.truthy

/-- Whether an association-list mapping contains a key. -/
def containsKey (k : String) : List (String × Value) → Bool
  | [] => false
  | (k', _) :: rest => k' == k || containsKey k rest

/-- First value bound to a key in an association-list mapping. -/
def lookupKey (k : String) : List (String × Value) → Option Value
  | [] => none
  | (k', v) :: rest => if k' == k then some v else lookupKey k rest

/-- The request descriptor an endpoint method hands to the transport:
HTTP verb, path relative to `<host>/api`, query-parameter mapping and
body mapping. -/
structure Request where
  verb : String
  path : String
  params : List (String × Value)
  data : List (String × Value)
deriving Repr

/-- The client's mutable state: the transport handle (bound to
`<host>/api`) and the `authenticated` flag. -/
structure Client where
  endpoint : String
  authenticated : Bool
deriving Repr

/-- A Python exception escaping a method: `LinkuriousException` with its
message, or the `AttributeError` raised by the response wrapper when a
missing field (such as `reason`) is accessed. -/
inductive PyError where
  | linkuriousException (msg : String)
  | attributeError (field : String)
deriving Repr

/-- The login response body, as far as `authenticate` inspects it:
its optional `email` and `reason` fields. -/
structure LoginResponse where
  email : Option String
  reason : Option String
deriving Repr

/-- Outcome of a call that may issue a request, mutate the client and
raise: the request issued (if any), the post-call client state, and the
exception raised (`none` on normal return). -/
structure CallResult where
  request : Option Request
  client : Client
  error : Option PyError
deriving Repr

namespace Linkurious

/-- `Linkurious.authenticate(self, username, password=None, apikey=None)`.
The login HTTP call is modelled by taking the server's response as the
`server` argument; the request it would send is recorded in the result. -/
def authenticate (c : Client) (username : String)
    (password apikey : Option String) (server : LoginResponse) : CallResult :=
  if !username.isEmpty && truthyOptStr password then
    let req : Request :=
      { verb := "POST", path := "auth/login", params := [],
        data := [("usernameOrEmail", .str username),
                 ("password", .str (password.getD ""))] }
    let res := server
    if res.email == some username then
      { request := some req, client := { c with authenticated := true },
        error := none }
    else
      match res.reason with
      | some r =>
          { request := some req, client := c,
            error := some (.linkuriousException ("could not authenticate " ++ r)) }
      | none =>
          { request := some req, client := c,
            error := some (.attributeError "reason") }
  else if !username.isEmpty && truthyOptStr apikey then
    { request := none, client := c,
      error := some (.linkuriousException "apikey authentication not yet implemented") }
  else
    { request := none, client := c,
      error := some (.linkuriousException "could not authenticate without password or apikey") }

/-- `Linkurious.__init__(self, host, username=None, password=None, apikey=None)`:
binds the transport to `<host>/api`, then authenticates iff `username` is
truthy. -/
def init (host : String) (username password apikey : Option String)
    (server : LoginResponse) : CallResult :=
  let c : Client := { endpoint := host ++ "/api", authenticated := false }
  if truthyOptStr username then
    authenticate c (username.getD "") password apikey server
  else
    { request := none, client := c, error := none }

/-- `Linkurious.status(self)`: `GET status`. -/
def status (c : Client) : Request × Client :=
  ({ verb := "GET", path := "status", params := [], data := [] }, c)

/-- `Linkurious.version(self)`: `GET version`. -/
def version (c : Client) : Request × Client :=
  ({ verb := "GET", path := "version", params := [], data := [] }, c)

/-- `Linkurious.get_custom_files(self, root=None, extensions=None)`:
`GET customFiles` with a params dict that always carries both keys. -/
def get_custom_files (c : Client) (root extensions : Option String) :
    Request × Client :=
  ({ verb := "GET", path := "customFiles",
     params := [("root", root.elim Value.null Value.str),
                ("extensions", extensions.elim Value.null Value.str)],
     data := [] }, c)

/-- `Linkurious.get_sources_status(self, with_styles=False, with_captions=False)`:
`GET dataSources`; a truthy boolean is reassigned to the integer `1`
before being placed in the params dict. -/
def get_sources_status (c : Client) (with_styles with_captions : Bool) :
    Request × Client :=
  let ws : Value := if with_styles then .int 1 else .bool with_styles
  let wc : Value := if with_captions then .int 1 else .bool with_captions
  ({ verb := "GET", path := "dataSources",
     params := [("with_styles", ws), ("with_captions", wc)],
     data := [] }, c)

/-- `Linkurious.get_sources_info(self)`: `GET admin/sources`. -/
def get_sources_info (c : Client) : Request × Client :=
  ({ verb := "GET", path := "admin/sources", params := [], data := [] }, c)

/-- `Linkurious.get_config(self, source_index=0)`: `GET config`. -/
def get_config (c : Client) (source_index : Int) : Request × Client :=
  ({ verb := "GET", path := "config",
     params := [("sourceIndex", .int source_index)], data := [] }, c)

/-- `Linkurious.update_config(self, source_index=0, path=None,
configuration_value=None, reset=False)`: `POST config`; `path` and
`configuration` enter the body only when truthy. -/
def update_config (c : Client) (source_index : Int) (path : Option String)
    (configuration_value : Option Value) (reset : Bool) : Request × Client :=
  let data : List (String × Value) :=
    [("sourceIndex", .int source_index), ("reset", .bool reset)]
  let data := if truthyOptStr path
    then data ++ [("path", .str (path.getD ""))] else data
  let data := if truthyOptVal configuration_value
    then data ++ [("configuration", configuration_value.getD .null)] else data
  ({ verb := "POST", path := "config", params := [], data := data }, c)

/-- `Linkurious.get_applications(self)`: `GET admin/applications`. -/
def get_applications (c : Client) : Request × Client :=
  ({ verb := "GET", path := "admin/applications", params := [], data := [] }, c)

/-- `Linkurious.create_application(self, name, groups, rights, enabled=True)`:
`POST admin/applications` with all four body fields always present. -/
def create_application (c : Client) (name : String)
    (groups rights : List Value) (enabled : Bool) : Request × Client :=
  ({ verb := "POST", path := "admin/applications", params := [],
     data := [("name", .str name), ("groups", .list groups),
              ("rights", .list rights), ("enabled", .bool enabled)] }, c)

/-- `Linkurious.update_application(self, id, name=None, enabled=True,
groups=None, rights=None)`: `POST admin/applications`; `groups`, `rights`
and `name` enter the body only when truthy, in that order. -/
def update_application (c : Client) (id : Int) (name : Option String)
    (enabled : Bool) (groups : Option (List Int))
    (rights : Option (List String)) : Request × Client :=
  let data : List (String × Value) := [("id", .int id), ("enabled", .bool enabled)]
  let data := if truthyOptList groups
    then data ++ [("groups", .list ((groups.getD []).map Value.int))] else data
  let data := if truthyOptList rights
    then data ++ [("rights", .list ((rights.getD []).map Value.str))] else data
  let data := if truthyOptStr name
    then data ++ [("name", .str (name.getD ""))] else data
  ({ verb := "POST", path := "admin/applications", params := [], data := data }, c)

/-- `Linkurious.run_cypher_query(self, sourcekey, query, with_digest=False,
with_degree=False)`: `POST <sourcekey>/graph/run/query` with a fixed
`dialect` of `cypher`. -/
def run_cypher_query (c : Client) (sourcekey query : String)
    (with_digest with_degree : Bool) : Request × Client :=
  ({ verb := "POST", path := sourcekey ++ "/graph/run/query", params := [],
     data := [("query", .str query), ("dialect", .str "cypher"),
              ("withDigest", .bool with_digest),
              ("withDegree", .bool with_degree)] }, c)

/-- `Linkurious.get_visualizations_tree(self, sourcekey)`. -/
def get_visualizations_tree (c : Client) (sourcekey : String) :
    Request × Client :=
  ({ verb := "GET", path := sourcekey ++ "/visualizations/tree",
     params := [], data := [] }, c)

/-- `Linkurious.get_visualization(self, sourcekey, id, with_digest=False,
with_degree=False)`: the two booleans are always present in the params. -/
def get_visualization (c : Client) (sourcekey : String) (id : Int)
    (with_digest with_degree : Bool) : Request × Client :=
  ({ verb := "GET", path := sourcekey ++ "/visualizations/" ++ toString id,
     params := [("withDigest", .bool with_digest),
                ("withDegree", .bool with_degree)],
     data := [] }, c)

/-- `Linkurious.create_visualization(self, sourcekey, title, nodes, edges)`:
`POST <sourcekey>/visualizations` with fixed `layout` and `alternativeIds`. -/
def create_visualization (c : Client) (sourcekey title : String)
    (nodes edges : List Value) : Request × Client :=
  ({ verb := "POST", path := sourcekey ++ "/visualizations", params := [],
     data := [("title", .str title),
              ("layout", .dict [("algorithm", .str "force"), ("mode", .str "fast")]),
              ("nodes", .list nodes), ("edges", .list edges),
              ("alternativeIds", .dict [("node", .str "id"), ("edge", .str "id")])] }, c)

/-- `Linkurious.update_visualization(self, sourcekey, id, visualization=None,
force_lock=False, do_layout=False)`: `None` is replaced by `{}`;
`forceLock`/`doLayout` enter the body only when truthy. -/
def update_visualization (c : Client) (sourcekey : String) (id : Int)
    (visualization : Option (List (String × Value)))
    (force_lock do_layout : Bool) : Request × Client :=
  let viz := visualization.getD []
  let data : List (String × Value) := [("visualization", .dict viz)]
  let data := if force_lock then data ++ [("forceLock", .bool true)] else data
  let data := if do_layout then data ++ [("doLayout", .bool true)] else data
  ({ verb := "PATCH", path := sourcekey ++ "/visualizations/" ++ toString id,
     params := [], data := data }, c)

/-- `Linkurious.delete_visualization(self, sourcekey, id)`. -/
def delete_visualization (c : Client) (sourcekey : String) (id : Int) :
    Request × Client :=
  ({ verb := "DELETE", path := sourcekey ++ "/visualizations/" ++ toString id,
     params := [], data := [] }, c)

/-- `Linkurious.get_visualization_share_rights(self, sourcekey, id)`. -/
def get_visualization_share_rights (c : Client) (sourcekey : String)
    (id : Int) : Request × Client :=
  ({ verb := "GET",
     path := sourcekey ++ "/visualizations/" ++ toString id ++ "/shares",
     params := [], data := [] }, c)

/-- `Linkurious.share_visualization(self, sourcekey, id, user_id, right)`. -/
def share_visualization (c : Client) (sourcekey : String)
    (id user_id : Int) (right : String) : Request × Client :=
  ({ verb := "PUT",
     path := sourcekey ++ "/visualizations/" ++ toString id
             ++ "/share/" ++ toString user_id,
     params := [], data := [("right", .str right)] }, c)

/-- `Linkurious.unshare_visualization(self, sourcekey, id, user_id)`. -/
def unshare_visualization (c : Client) (sourcekey : String)
    (id user_id : Int) : Request × Client :=
  ({ verb := "DELETE",
     path := sourcekey ++ "/visualizations/" ++ toString id
             ++ "/share/" ++ toString user_id,
     params := [], data := [] }, c)

/-- `Linkurious.get_users(self, starts_with=None, contains=None,
group_id=None, limit=None, offset=None, sort_by=None, sort_direction=None)`:
`GET users`; each parameter enters the params dict only when truthy. -/
def get_users (c : Client) (starts_with contains : Option String)
    (group_id limit offset : Option Int)
    (sort_by sort_direction : Option String) : Request × Client :=
  let params : List (String × Value) := []
  let params := if truthyOptStr starts_with
    then params ++ [("starts_with", .str (starts_with.getD ""))] else params
  let params := if truthyOptStr contains
    then params ++ [("contains", .str (contains.getD ""))] else params
  let params := if truthyOptInt group_id
    then params ++ [("group_id", .int (group_id.getD 0))] else params
  let params := if truthyOptInt limit
    then params ++ [("limit", .int (limit.getD 0))] else params
  let params := if truthyOptInt offset
    then params ++ [("offset", .int (offset.getD 0))] else params
  let params := if truthyOptStr sort_by
    then params ++ [("sort_by", .str (sort_by.getD ""))] else params
  let params := if truthyOptStr sort_direction
    then params ++ [("sort_direction", .str (sort_direction.getD ""))] else params
  ({ verb := "GET", path := "users", params := params, data := [] }, c)

/-- `Linkurious.get_groups(self, sourcekey)`: `GET admin/<sourcekey>/groups`. -/
def get_groups (c : Client) (sourcekey : String) : Request × Client :=
  ({ verb := "GET", path := "admin/" ++ sourcekey ++ "/groups",
     params := [], data := [] }, c)

end Linkurious

/-! ### Shared helpers for the theorems -/

/-- A concrete client state used in closed statements. -/
def demoClient : Client := { endpoint := "https://h/api", authenticated := false }

/-- Replace a falsy `Optional[str]` argument by `None`. -/
def dropFalsyStr (o : Option String) : Option String :=
  if truthyOptStr o then o else none

/-- Replace a falsy `Optional[int]` argument by `None`. -/
def dropFalsyInt (o : Option Int) : Option Int :=
  if truthyOptInt o then o else none

/-- Replace a falsy `Optional[List]` argument by `None`. -/
def dropFalsyList {α : Type} (o : Option (List α)) : Option (List α) :=
  if truthyOptList o then o else none

/-- Replace a falsy `Optional[Any]` argument by `None`. -/
def dropFalsyVal (o : Option Value) : Option Value :=
  if truthyOptVal o then o else none

theorem dropFalsyStr_eq_of_truthy (o : Option String)
    (h : truthyOptStr o = true) : dropFalsyStr o = o := by
  simp [dropFalsyStr, h]

theorem dropFalsyStr_truthy (o : Option String) :
    truthyOptStr (dropFalsyStr o) = truthyOptStr o := by
  cases h : truthyOptStr o
  · unfold dropFalsyStr
    rw [h]
    rfl
  · rw [dropFalsyStr_eq_of_truthy o h]
    exact h

theorem dropFalsyInt_eq_of_truthy (o : Option Int)
    (h : truthyOptInt o = true) : dropFalsyInt o = o := by
  simp [dropFalsyInt, h]

theorem dropFalsyInt_truthy (o : Option Int) :
    truthyOptInt (dropFalsyInt o) = truthyOptInt o := by
  cases h : truthyOptInt o
  · unfold dropFalsyInt
    rw [h]
    rfl
  · rw [dropFalsyInt_eq_of_truthy o h]
    exact h

theorem dropFalsyList_eq_of_truthy {α : Type} (o : Option (List α))
    (h : truthyOptList o = true) : dropFalsyList o = o := by
  simp [dropFalsyList, h]

theorem dropFalsyList_truthy {α : Type} (o : Option (List α)) :
    truthyOptList (dropFalsyList o) = truthyOptList o := by
  cases h : truthyOptList o
  · unfold dropFalsyList
    rw [h]
    rfl
  · rw [dropFalsyList_eq_of_truthy o h]
    exact h

theorem dropFalsyVal_eq_of_truthy (o : Option Value)
    (h : truthyOptVal o = true) : dropFalsyVal o = o := by
  simp [dropFalsyVal, h]

theorem dropFalsyVal_truthy (o : Option Value) :
    truthyOptVal (dropFalsyVal o) = truthyOptVal o := by
  cases h : truthyOptVal o
  · unfold dropFalsyVal
    rw [h]
    rfl
  · rw [dropFalsyVal_eq_of_truthy o h]
    exact h

theorem appendIf_dropStr (ps : List (String × Value)) (k : String)
    (o : Option String) :
    (if truthyOptStr (dropFalsyStr o)
      then ps ++ [(k, Value.str ((dropFalsyStr o).getD ""))] else ps)
    = (if truthyOptStr o then ps ++ [(k, Value.str (o.getD ""))] else ps) := by
  rw [dropFalsyStr_truthy]
  cases h : truthyOptStr o
  · rfl
  · rw [dropFalsyStr_eq_of_truthy o h]

theorem appendIf_dropInt (ps : List (String × Value)) (k : String)
    (o : Option Int) :
    (if truthyOptInt (dropFalsyInt o)
      then ps ++ [(k, Value.int ((dropFalsyInt o).getD 0))] else ps)
    = (if truthyOptInt o then ps ++ [(k, Value.int (o.getD 0))] else ps) := by
  rw [dropFalsyInt_truthy]
  cases h : truthyOptInt o
  · rfl
  · rw [dropFalsyInt_eq_of_truthy o h]

theorem appendIf_dropVal (ps : List (String × Value)) (k : String)
    (o : Option Value) :
    (if truthyOptVal (dropFalsyVal o)
      then ps ++ [(k, (dropFalsyVal o).getD .null)] else ps)
    = (if truthyOptVal o then ps ++ [(k, o.getD .null)] else ps) := by
  rw [dropFalsyVal_truthy]
  cases h : truthyOptVal o
  · rfl
  · rw [dropFalsyVal_eq_of_truthy o h]

theorem appendIf_dropListInt (ps : List (String × Value)) (k : String)
    (o : Option (List Int)) :
    (if truthyOptList (dropFalsyList o)
      then ps ++ [(k, Value.list (((dropFalsyList o).getD []).map Value.int))] else ps)
    = (if truthyOptList o
      then ps ++ [(k, Value.list ((o.getD []).map Value.int))] else ps) := by
  rw [dropFalsyList_truthy]
  cases h : truthyOptList o
  · rfl
  · rw [dropFalsyList_eq_of_truthy o h]

theorem appendIf_dropListStr (ps : List (String × Value)) (k : String)
    (o : Option (List String)) :
    (if truthyOptList (dropFalsyList o)
      then ps ++ [(k, Value.list (((dropFalsyList o).getD []).map Value.str))] else ps)
    = (if truthyOptList o
      then ps ++ [(k, Value.list ((o.getD []).map Value.str))] else ps) := by
  rw [dropFalsyList_truthy]
  cases h : truthyOptList o
  · rfl
  · rw [dropFalsyList_eq_of_truthy o h]

theorem truthyOptStr_some (s : String) : truthyOptStr (some s) = !s.isEmpty := rfl

theorem isEmpty_false_of_ne (s : String) (h : s ≠ "") : s.isEmpty = false := by
  cases hb : s.isEmpty
  · rfl
  · exact absurd ((String.isEmpty_iff s).mp hb) h

/-! ### Claims -/

/-- C1 (counterexample): `get_custom_files` called without `root`/`extensions`,
`get_visualization` and `get_sources_status` called with their defaults all
build query-parameter mappings that DO contain the omitted parameters' keys. -/
theorem C1_counterexample :
    containsKey "root" (Linkurious.get_custom_files demoClient none none).1.params = true
    ∧ containsKey "extensions" (Linkurious.get_custom_files demoClient none none).1.params = true
    ∧ containsKey "withDigest" (Linkurious.get_visualization demoClient "s1" 5 false false).1.params = true
    ∧ containsKey "withDegree" (Linkurious.get_visualization demoClient "s1" 5 false false).1.params = true
    ∧ containsKey "with_styles" (Linkurious.get_sources_status demoClient false false).1.params = true
    ∧ containsKey "with_captions" (Linkurious.get_sources_status demoClient false false).1.params = true :=
  ⟨rfl, rfl, rfl, rfl, rfl, rfl⟩

/-- C1 (amended): the truthiness-tested optional parameters are omitted
from the mapping when not supplied — all seven of `get_users` (empty
mapping when all are omitted), `path`/`configuration_value` of
`update_config` (only `sourceIndex` and `reset` remain) and
`name`/`groups`/`rights` of `update_application` (only `id` and `enabled`
remain) — but `get_custom_files` always sends `root` and `extensions` (as
null when omitted), `get_visualization` and `get_sources_status` always
send their boolean parameters' keys (as false when defaulted), and
`update_visualization` always sends the `visualization` key (as `{}` when
the argument is omitted). -/
theorem C1_amended (c : Client) (sourcekey : String) (id : Int) :
    (Linkurious.get_custom_files c none none).1.params
      = [("root", Value.null), ("extensions", Value.null)]
    ∧ (Linkurious.get_visualization c sourcekey id false false).1.params
      = [("withDigest", Value.bool false), ("withDegree", Value.bool false)]
    ∧ (Linkurious.get_sources_status c false false).1.params
      = [("with_styles", Value.bool false), ("with_captions", Value.bool false)]
    ∧ (Linkurious.get_users c none none none none none none none).1.params = []
    ∧ (∀ si reset, (Linkurious.update_config c si none none reset).1.data
        = [("sourceIndex", Value.int si), ("reset", Value.bool reset)])
    ∧ (∀ i enabled, (Linkurious.update_application c i none enabled none none).1.data
        = [("id", Value.int i), ("enabled", Value.bool enabled)])
    ∧ (Linkurious.update_visualization c sourcekey id none false false).1.data
        = [("visualization", Value.dict [])] :=
  ⟨rfl, rfl, rfl, rfl, fun _ _ => rfl, fun _ _ => rfl, rfl⟩

/-- C2 (counterexample): `get_sources_status(False, False)` places the
literal boolean `false` in the query mapping, not the integer `0`. -/
theorem C2_counterexample :
    lookupKey "with_styles" (Linkurious.get_sources_status demoClient false false).1.params
      = some (Value.bool false)
    ∧ lookupKey "with_captions" (Linkurious.get_sources_status demoClient false false).1.params
      = some (Value.bool false)
    ∧ Value.bool false ≠ Value.int 0 :=
  ⟨rfl, rfl, fun h => nomatch h⟩

/-- C2 (amended): for every call to `get_sources_status`, `with_styles` and
`with_captions` are placed in the query mapping as the integer `1` when the
caller passes `True`, and as the boolean `false` (unconverted) when the
caller passes `False`; the literal `true` is never sent. -/
theorem C2_amended (c : Client) (ws wc : Bool) :
    lookupKey "with_styles" (Linkurious.get_sources_status c ws wc).1.params
      = some (if ws then Value.int 1 else Value.bool false)
    ∧ lookupKey "with_captions" (Linkurious.get_sources_status c ws wc).1.params
      = some (if wc then Value.int 1 else Value.bool false) := by
  cases ws <;> cases wc <;> exact ⟨rfl, rfl⟩

/-- C3: `authenticate` with a non-empty username and password, on a login
response whose `email` equals the username, issues the login request, sets
`authenticated := true` and raises no error. -/
theorem C3_authenticate_success (c : Client) (u p : String) (ak : Option String)
    (srv : LoginResponse) (hu : u ≠ "") (hp : p ≠ "") (he : srv.email = some u) :
    Linkurious.authenticate c u (some p) ak srv
      = { request := some { verb := "POST", path := "auth/login", params := [],
                            data := [("usernameOrEmail", .str u), ("password", .str p)] },
          client := { c with authenticated := true },
          error := none } := by
  have hu' := isEmpty_false_of_ne u hu
  have hp' := isEmpty_false_of_ne p hp
  simp [Linkurious.authenticate, truthyOptStr, hu', hp', he]

/-- C3 (witness): a concrete successful authentication. -/
theorem C3_witness :
    Linkurious.authenticate demoClient "u@x" (some "pw") none ⟨some "u@x", none⟩
      = { request := some { verb := "POST", path := "auth/login", params := [],
                            data := [("usernameOrEmail", .str "u@x"), ("password", .str "pw")] },
          client := { demoClient with authenticated := true },
          error := none } :=
  C3_authenticate_success demoClient "u@x" "pw" none ⟨some "u@x", none⟩
    (by decide) (by decide) rfl

/-- C4: `authenticate` with a non-empty username and password, on a login
response whose `email` field is missing or different from the username,
raises a `LinkuriousException` carrying the server-reported reason and
leaves the client state (in particular the `authenticated` flag) unchanged. -/
theorem C4_authenticate_mismatch (c : Client) (u p r : String) (ak : Option String)
    (srv : LoginResponse) (hu : u ≠ "") (hp : p ≠ "")
    (he : srv.email ≠ some u) (hr : srv.reason = some r) :
    Linkurious.authenticate c u (some p) ak srv
      = { request := some { verb := "POST", path := "auth/login", params := [],
                            data := [("usernameOrEmail", .str u), ("password", .str p)] },
          client := c,
          error := some (.linkuriousException ("could not authenticate " ++ r)) } := by
  have hu' := isEmpty_false_of_ne u hu
  have hp' := isEmpty_false_of_ne p hp
  have he' : (srv.email == some u) = false := by
    cases hb : srv.email == some u
    · rfl
    · exact absurd (eq_of_beq hb) he
  simp [Linkurious.authenticate, truthyOptStr, hu', hp', he', hr]

/-- C4 (witness): a concrete failed authentication (email differs), with an
initially unauthenticated client whose flag stays false. -/
theorem C4_witness :
    Linkurious.authenticate demoClient "u@x" (some "pw") none ⟨some "other", some "bad credentials"⟩
      = { request := some { verb := "POST", path := "auth/login", params := [],
                            data := [("usernameOrEmail", .str "u@x"), ("password", .str "pw")] },
          client := demoClient,
          error := some (.linkuriousException ("could not authenticate " ++ "bad credentials")) } :=
  C4_authenticate_mismatch demoClient "u@x" "pw" "bad credentials" none
    ⟨some "other", some "bad credentials"⟩ (by decide) (by decide) (by decide) rfl

/-- C5: `authenticate` with a non-empty username, no usable password and a
non-empty apikey raises the not-implemented `LinkuriousException`, issues no
login request, and leaves the client unchanged, regardless of the apikey. -/
theorem C5_apikey_unsupported (c : Client) (u k : String) (password : Option String)
    (srv : LoginResponse) (hu : u ≠ "") (hp : truthyOptStr password = false)
    (hk : k ≠ "") :
    Linkurious.authenticate c u password (some k) srv
      = { request := none, client := c,
          error := some (.linkuriousException "apikey authentication not yet implemented") } := by
  have hu' := isEmpty_false_of_ne u hu
  have hk' := isEmpty_false_of_ne k hk
  simp [Linkurious.authenticate, truthyOptStr_some, hu', hp, hk']

/-- C5 (witness): a concrete apikey-only authentication attempt. -/
theorem C5_witness :
    Linkurious.authenticate demoClient "u@x" none (some "deadbeef") ⟨none, none⟩
      = { request := none, client := demoClient,
          error := some (.linkuriousException "apikey authentication not yet implemented") } :=
  C5_apikey_unsupported demoClient "u@x" "deadbeef" none ⟨none, none⟩
    (by decide) rfl (by decide)

/-- C6: construction with a (truthy) username delegates to `authenticate`
with the same arguments on the freshly-bound client, so it yields exactly
the outcome (including errors) `authenticate` yields; construction without
a username issues no request, raises nothing and leaves `authenticated`
false. -/
theorem C6_init_authenticates (host u : String) (password apikey : Option String)
    (srv : LoginResponse) (hu : u ≠ "") :
    Linkurious.init host (some u) password apikey srv
      = Linkurious.authenticate { endpoint := host ++ "/api", authenticated := false }
          u password apikey srv
    ∧ ∀ p a s, Linkurious.init host none p a s
      = { request := none,
          client := { endpoint := host ++ "/api", authenticated := false },
          error := none } := by
  constructor
  · have hu' := isEmpty_false_of_ne u hu
    simp [Linkurious.init, truthyOptStr, hu']
  · intro p a s
    rfl

/-- C6 (witness): concrete constructions with and without a username. -/
theorem C6_witness :
    Linkurious.init "https://h" (some "u@x") (some "pw") none ⟨some "u@x", none⟩
      = Linkurious.authenticate { endpoint := "https://h" ++ "/api", authenticated := false }
          "u@x" (some "pw") none ⟨some "u@x", none⟩
    ∧ Linkurious.init "https://h" none none none ⟨none, none⟩
      = { request := none,
          client := { endpoint := "https://h" ++ "/api", authenticated := false },
          error := none } :=
  ⟨(C6_init_authenticates "https://h" "u@x" (some "pw") none ⟨some "u@x", none⟩ (by decide)).1,
   (C6_init_authenticates "https://h" "u@x" (some "pw") none ⟨some "u@x", none⟩ (by decide)).2
     none none ⟨none, none⟩⟩

/-- C7: `run_cypher_query("s1", "MATCH (n) RETURN n")` with defaulted
optionals issues `POST s1/graph/run/query` with exactly the body
`{query, dialect: "cypher", withDigest: false, withDegree: false}`, and the
`dialect` field is the fixed string `"cypher"` for every invocation. -/
theorem C7_run_cypher_query (c : Client) :
    (Linkurious.run_cypher_query c "s1" "MATCH (n) RETURN n" false false).1
      = { verb := "POST", path := "s1/graph/run/query", params := [],
          data := [("query", .str "MATCH (n) RETURN n"), ("dialect", .str "cypher"),
                   ("withDigest", .bool false), ("withDegree", .bool false)] }
    ∧ ∀ sourcekey query d1 d2,
        lookupKey "dialect" (Linkurious.run_cypher_query c sourcekey query d1 d2).1.data
          = some (Value.str "cypher") :=
  ⟨rfl, fun _ _ _ _ => rfl⟩

/-- C8: `authenticate` with neither a usable password nor a usable apikey
raises the no-credential `LinkuriousException`, issues no request, and
leaves the client (its `authenticated` flag) unchanged. -/
theorem C8_no_credential (c : Client) (u : String) (password apikey : Option String)
    (srv : LoginResponse) (hp : truthyOptStr password = false)
    (ha : truthyOptStr apikey = false) :
    Linkurious.authenticate c u password apikey srv
      = { request := none, client := c,
          error := some (.linkuriousException "could not authenticate without password or apikey") } := by
  simp [Linkurious.authenticate, hp, ha]

/-- C8 (witness): a concrete credential-less authentication attempt. -/
theorem C8_witness :
    Linkurious.authenticate demoClient "u@x" none none ⟨none, none⟩
      = { request := none, client := demoClient,
          error := some (.linkuriousException "could not authenticate without password or apikey") } :=
  C8_no_credential demoClient "u@x" none none ⟨none, none⟩ rfl rfl

/-- C9: every endpoint method other than `authenticate` returns the client
state unchanged: neither the `authenticated` flag nor the transport handle
is written, in any client state. -/
theorem C9_endpoint_frame :
    (∀ c, (Linkurious.status c).2 = c)
    ∧ (∀ c, (Linkurious.version c).2 = c)
    ∧ (∀ c root extensions, (Linkurious.get_custom_files c root extensions).2 = c)
    ∧ (∀ c ws wc, (Linkurious.get_sources_status c ws wc).2 = c)
    ∧ (∀ c, (Linkurious.get_sources_info c).2 = c)
    ∧ (∀ c si, (Linkurious.get_config c si).2 = c)
    ∧ (∀ c si path cv reset, (Linkurious.update_config c si path cv reset).2 = c)
    ∧ (∀ c, (Linkurious.get_applications c).2 = c)
    ∧ (∀ c name groups rights enabled,
        (Linkurious.create_application c name groups rights enabled).2 = c)
    ∧ (∀ c i name enabled groups rights,
        (Linkurious.update_application c i name enabled groups rights).2 = c)
    ∧ (∀ c sk q d1 d2, (Linkurious.run_cypher_query c sk q d1 d2).2 = c)
    ∧ (∀ c sk, (Linkurious.get_visualizations_tree c sk).2 = c)
    ∧ (∀ c sk i d1 d2, (Linkurious.get_visualization c sk i d1 d2).2 = c)
    ∧ (∀ c sk t nodes edges, (Linkurious.create_visualization c sk t nodes edges).2 = c)
    ∧ (∀ c sk i viz fl dl, (Linkurious.update_visualization c sk i viz fl dl).2 = c)
    ∧ (∀ c sk i, (Linkurious.delete_visualization c sk i).2 = c)
    ∧ (∀ c sk i, (Linkurious.get_visualization_share_rights c sk i).2 = c)
    ∧ (∀ c sk i uid right, (Linkurious.share_visualization c sk i uid right).2 = c)
    ∧ (∀ c sk i uid, (Linkurious.unshare_visualization c sk i uid).2 = c)
    ∧ (∀ c a b g l o sb sd, (Linkurious.get_users c a b g l o sb sd).2 = c)
    ∧ (∀ c sk, (Linkurious.get_groups c sk).2 = c) := by
  refine ⟨?_, ?_, ?_, ?_, ?_, ?_, ?_, ?_, ?_, ?_, ?_, ?_, ?_, ?_, ?_, ?_, ?_, ?_,
    ?_, ?_, ?_⟩ <;> intros <;> rfl

/-- C10: in `get_users`, `update_config`, `update_application` and
`update_visualization`, an optional argument supplied with a falsy value
(`0`, `""`, `False`, `[]`) is omitted from the outgoing mapping exactly as
if it had not been supplied; in particular `get_users(limit=0)` sends no
`limit` key and `update_config(path="p", configuration_value=0)` sends a
`path` field but no `configuration` field. -/
theorem C10_falsy_omitted :
    (∀ c a b g l o sb sd,
      Linkurious.get_users c (dropFalsyStr a) (dropFalsyStr b) (dropFalsyInt g)
          (dropFalsyInt l) (dropFalsyInt o) (dropFalsyStr sb) (dropFalsyStr sd)
        = Linkurious.get_users c a b g l o sb sd)
    ∧ (∀ c, containsKey "limit"
        (Linkurious.get_users c none none none (some 0) none none none).1.params = false)
    ∧ (∀ c si path cv reset,
      Linkurious.update_config c si (dropFalsyStr path) (dropFalsyVal cv) reset
        = Linkurious.update_config c si path cv reset)
    ∧ (∀ c, containsKey "configuration"
          (Linkurious.update_config c 0 (some "p") (some (.int 0)) false).1.data = false
        ∧ containsKey "path"
          (Linkurious.update_config c 0 (some "p") (some (.int 0)) false).1.data = true)
    ∧ (∀ c i name enabled groups rights,
      Linkurious.update_application c i (dropFalsyStr name) enabled
          (dropFalsyList groups) (dropFalsyList rights)
        = Linkurious.update_application c i name enabled groups rights)
    ∧ (∀ c sk i viz,
      (Linkurious.update_visualization c sk i viz false false).1.data
        = [("visualization", .dict (viz.getD []))]) := by
  refine ⟨?_, ?_, ?_, ?_, ?_, ?_⟩
  · intro c a b g l o sb sd
    simp only [Linkurious.get_users, appendIf_dropStr, appendIf_dropInt]
  · intro c
    rfl
  · intro c si path cv reset
    simp only [Linkurious.update_config, appendIf_dropStr, appendIf_dropVal]
  · intro c
    exact ⟨rfl, rfl⟩
  · intro c i name enabled groups rights
    simp only [Linkurious.update_application, appendIf_dropListInt,
      appendIf_dropListStr, appendIf_dropStr]
  · intro c sk i viz
    rfl
